import Mathlib

/-!
# LiTS processor: volume normalisation and re-orientation

A shallow embedding of `c++/src/lits_processing/lits_processor.cpp`.

* Voxel intensities and the four `float` configuration values are rationals. The file
  itself only stores them and passes them on; all arithmetic on them happens in the
  routines it calls, and no statement below depends on how that arithmetic rounds.
* `unsigned` axis orders are naturals, `short` axis orientations and `int k` are integers.
* The ITK filters and the `*_cuda` routines the processor calls are not part of the
  analysed file; the operations take them as a `Toolkit` of functions, and every call
  the processor makes to one of them is recorded, in order, in the `calls` of the
  `Outcome`.
* The functions of the file are `void`, contain no `throw` and no early `return`:
  they are total functions from the state before to the state after.
-/

namespace LiTS

/-! ## Data model -/

/-- A fixed array of three elements (`unsigned ord[3]`, `short orient[3]`, a row of a
direction matrix). -/
structure Vec3 (α : Type) where
  x0 : α
  x1 : α
  x2 : α
deriving DecidableEq

/-- Read `v[i]`; the code only reads indices 0, 1 and 2. -/
def Vec3.get {α : Type} (v : Vec3 α) (i : Nat) : α :=
  match i with
  | 0 => v.x0
  | 1 => v.x1
  | _ => v.x2

/-- Write `v[i] = a`; the code only writes indices 0, 1 and 2. -/
def Vec3.set {α : Type} (v : Vec3 α) (i : Nat) (a : α) : Vec3 α :=
  match i with
  | 0 => { v with x0 := a }
  | 1 => { v with x1 := a }
  | 2 => { v with x2 := a }
  | _ => v

/-- An `itk::Matrix<double, 3, 3>` (`DirectionType`). -/
abbrev Direction := Vec3 (Vec3 ℚ)

/-- An ITK image as far as the processor looks at it: the dense voxel buffer behind
`GetBufferPointer()`, the size of its region and the direction returned by
`GetDirection()`. -/
structure Image (α : Type) where
  buffer : List α
  size : Vec3 Nat
  direction : Direction
deriving DecidableEq

/-- The intensity volume (`float` voxels). -/
abbrev VolumeType := Image ℚ

/-- The segmentation mask (`unsigned char` voxels). -/
abbrev SegmentType := Image Nat

/-- Modelled from the spec: the scan collaborator (`LiTS_scan`, whose class is outside the
analysed files). Section 6: it exposes the volume buffer, the optional segmentation
buffer, the dimensions and the current AxisSpec, and setters that replace either
buffer with a transformed result. -/
structure LiTS_scan where
  volume : VolumeType
  segment : SegmentType
  w : Nat
  h : Nat
  d : Nat
  axes_order : Vec3 Nat
  axes_orient : Vec3 Int
deriving DecidableEq

namespace LiTS_scan

def get_volume (scan : LiTS_scan) : VolumeType := scan.volume

def get_segment (scan : LiTS_scan) : SegmentType := scan.segment

def get_width (scan : LiTS_scan) : Nat := scan.w

def get_height (scan : LiTS_scan) : Nat := scan.h

def get_depth (scan : LiTS_scan) : Nat := scan.d

def get_axes_order (scan : LiTS_scan) : Vec3 Nat := scan.axes_order

def get_axes_orient (scan : LiTS_scan) : Vec3 Int := scan.axes_orient

def set_volume (scan : LiTS_scan) (v : VolumeType) : LiTS_scan := { scan with volume := v }

def set_segment (scan : LiTS_scan) (s : SegmentType) : LiTS_scan := { scan with segment := s }

/-- The effect of a routine that writes the volume in place through
`scan->get_volume()->GetBufferPointer()`. -/
def write_volume_buffer (scan : LiTS_scan) (buf : List ℚ) : LiTS_scan :=
  { scan with volume := { scan.volume with buffer := buf } }

/-- The effect of a routine that writes the segmentation in place through
`scan->get_segment()->GetBufferPointer()`. -/
def write_segment_buffer (scan : LiTS_scan) (buf : List Nat) : LiTS_scan :=
  { scan with segment := { scan.segment with buffer := buf } }

end LiTS_scan

/-- The private members of `LiTS_processor`. -/
structure LiTS_processor where
  lower_th : ℚ
  upper_th : ℚ
  min_value : ℚ
  max_value : ℚ
  approach : String
  ord : Vec3 Nat
  orient : Vec3 Int
deriving DecidableEq

/-! ## The routines the processor calls -/

/-- The ITK filters (`RescalerType` is the intensity-windowing filter, `OrientVolumeType`
and `OrientSegmentType` the orienting filter), the planner `reorient_permute` and the
`*_cuda` routines of `pre_and_post_processor.cuh`, with the arguments the processor
passes to each. `reorient_permute` receives both flags as `false` and returns
`(reorient, permute)`. A `*_cuda` routine returns the new contents of the buffer it is
handed; it reads the dimensions and the axis arrays. -/
structure Toolkit where
  rescaler : VolumeType → ℚ → ℚ → ℚ → ℚ → VolumeType
  orienter_v : Direction → VolumeType → Direction → VolumeType
  orienter_s : Direction → SegmentType → Direction → SegmentType
  reorient_permute : Vec3 Nat → Vec3 Int → Vec3 Nat → Vec3 Int → Bool × Bool
  preprocess_volume_cuda :
    List ℚ → Nat → Nat → Nat → Vec3 Nat → Vec3 Int → ℚ → ℚ → ℚ → ℚ → List ℚ
  normalize_volume_cuda : List ℚ → Nat → Nat → Nat → ℚ → ℚ → ℚ → ℚ → List ℚ
  filter_with_median_cuda : List ℚ → Nat → Nat → Nat → Int → List ℚ
  reorient_volume_cuda :
    List ℚ → Nat → Nat → Nat → Vec3 Nat → Vec3 Int → Vec3 Nat → Vec3 Int → List ℚ
  reorient_segment_cuda :
    List Nat → Nat → Nat → Nat → Vec3 Nat → Vec3 Int → Vec3 Nat → Vec3 Int → List Nat

/-- One call made by the processor, with the configuration it passes. -/
inductive Call where
  | rescaler (window_min window_max output_min output_max : ℚ)
  | orienter_v (given desired : Direction)
  | orienter_s (given desired : Direction)
  | preprocess_volume_cuda (w h d : Nat) (cord : Vec3 Nat) (cornt : Vec3 Int)
      (lt ut mn mx : ℚ)
  | normalize_volume_cuda (w h d : Nat) (lt ut mn mx : ℚ)
  | filter_with_median_cuda (w h d : Nat) (k : Int)
  | reorient_volume_cuda (w h d : Nat) (cord : Vec3 Nat) (cornt : Vec3 Int)
      (dord : Vec3 Nat) (dornt : Vec3 Int)
  | reorient_segment_cuda (w h d : Nat) (cord : Vec3 Nat) (cornt : Vec3 Int)
      (dord : Vec3 Nat) (dornt : Vec3 Int)
deriving DecidableEq

/-- Whether a call is to one of the accelerated (`*_cuda`) routines. -/
def Call.is_cuda : Call → Bool
  | .rescaler .. => false
  | .orienter_v .. => false
  | .orienter_s .. => false
  | .preprocess_volume_cuda .. => true
  | .normalize_volume_cuda .. => true
  | .filter_with_median_cuda .. => true
  | .reorient_volume_cuda .. => true
  | .reorient_segment_cuda .. => true

/-- Whether a call is the intensity mapping of a volume (by the windowing filter or by
a kernel that normalises) with the given window. -/
def Call.maps_window (lt ut : ℚ) : Call → Bool
  | .rescaler a b _ _ => a == lt && b == ut
  | .preprocess_volume_cuda _ _ _ _ _ a b _ _ => a == lt && b == ut
  | .normalize_volume_cuda _ _ _ a b _ _ => a == lt && b == ut
  | _ => false

/-- The scan after an operation and the calls the operation made, in order. -/
structure Outcome where
  scan : LiTS_scan
  calls : List Call
deriving DecidableEq

/-! ## `lits_processor.cpp` -/

/-- The C string behind `std::string::c_str()`, as the `str*` functions read it: the
characters before the first NUL. -/
def c_str (s : String) : List Char :=
  s.data.takeWhile (fun c => c != Char.ofNat 0)

/-- The function `strcmp` on two C strings: zero when they are equal, otherwise the
difference of the first pair of characters that differ (the terminating NUL counts
as 0). -/
def strcmp : List Char → List Char → Int
  | [], [] => 0
  | [], b :: _ => - (b.toNat : Int)
  | a :: _, [] => (a.toNat : Int)
  | a :: as, b :: bs => if a = b then strcmp as bs else (a.toNat : Int) - (b.toNat : Int)

/-- The test `!strcmp(approach.c_str(), "itk")` that opens every dispatching method. -/
def is_itk (p : LiTS_processor) : Bool :=
  strcmp (c_str p.approach) ['i', 't', 'k'] == 0

/-- The constructor `LiTS_processor::LiTS_processor`: stores the five arguments, then the loop
`for (i = 0; i < 3; i++) { ord[i] = i; orient[i] = 1; }`. -/
def new_LiTS_processor (lt ut min max : ℚ) (app : String) : LiTS_processor :=
  let axes : Vec3 Nat × Vec3 Int :=
    (List.range 3).foldl (fun a i => (a.1.set i i, a.2.set i 1)) (⟨0, 0, 0⟩, ⟨0, 0, 0⟩)
  { lower_th := lt, upper_th := ut, min_value := min, max_value := max, approach := app,
    ord := axes.1, orient := axes.2 }

/-- The desired direction both orienting branches build: a default (zero) matrix
whose diagonal is then set from the three orientations. -/
def desired_direction (dornt : Vec3 Int) : Direction :=
  ⟨⟨(dornt.get 0 : ℚ), 0, 0⟩, ⟨0, (dornt.get 1 : ℚ), 0⟩, ⟨0, 0, (dornt.get 2 : ℚ)⟩⟩

def preprocess_volume (E : Toolkit) (p : LiTS_processor) (scan : LiTS_scan) : Outcome :=
  let cord := scan.get_axes_order
  let cornt := scan.get_axes_orient
  if is_itk p then
    -- 1. Voxel values range re-scaling
    let scan1 := scan.set_volume
      (E.rescaler scan.get_volume p.lower_th p.upper_th p.min_value p.max_value)
    let c1 := Call.rescaler p.lower_th p.upper_th p.min_value p.max_value
    -- 2. Permute and re-orient axes if necessary
    let plan := E.reorient_permute cord cornt p.ord p.orient
    if plan.1 || plan.2 then
      let direction := scan1.get_volume.direction
      let dornt := desired_direction p.orient
      { scan := scan1.set_volume (E.orienter_v direction scan1.get_volume dornt),
        calls := [c1, Call.orienter_v direction dornt] }
    else
      { scan := scan1, calls := [c1] }
  else
    { scan := scan.write_volume_buffer
        (E.preprocess_volume_cuda scan.get_volume.buffer scan.get_width scan.get_height
          scan.get_depth cord cornt p.lower_th p.upper_th p.min_value p.max_value),
      calls := [Call.preprocess_volume_cuda scan.get_width scan.get_height scan.get_depth
        cord cornt p.lower_th p.upper_th p.min_value p.max_value] }

def normalize_volume (E : Toolkit) (p : LiTS_processor) (scan : LiTS_scan) : Outcome :=
  if is_itk p then
    { scan := scan.set_volume
        (E.rescaler scan.get_volume p.lower_th p.upper_th p.min_value p.max_value),
      calls := [Call.rescaler p.lower_th p.upper_th p.min_value p.max_value] }
  else
    { scan := scan.write_volume_buffer
        (E.normalize_volume_cuda scan.get_volume.buffer scan.get_width scan.get_height
          scan.get_depth p.lower_th p.upper_th p.min_value p.max_value),
      calls := [Call.normalize_volume_cuda scan.get_width scan.get_height scan.get_depth
        p.lower_th p.upper_th p.min_value p.max_value] }

def filter_with_median (E : Toolkit) (_p : LiTS_processor) (scan : LiTS_scan) (k : Int) :
    Outcome :=
  { scan := scan.write_volume_buffer
      (E.filter_with_median_cuda scan.get_volume.buffer scan.get_width scan.get_height
        scan.get_depth k),
    calls := [Call.filter_with_median_cuda scan.get_width scan.get_height scan.get_depth k] }

/-- The overload `reorient_volume(LiTS_scan *scan, cord, cornt, dord, dornt)`. -/
def reorient_volume (E : Toolkit) (p : LiTS_processor) (scan : LiTS_scan)
    (cord : Vec3 Nat) (cornt : Vec3 Int) (dord : Vec3 Nat) (dornt : Vec3 Int) : Outcome :=
  if is_itk p then
    let plan := E.reorient_permute cord cornt dord dornt
    if plan.1 || plan.2 then
      let dir := scan.get_volume.direction
      let desired_orient := desired_direction dornt
      { scan := scan.set_volume (E.orienter_v dir scan.get_volume desired_orient),
        calls := [Call.orienter_v dir desired_orient] }
    else
      { scan := scan, calls := [] }
  else
    { scan := scan.write_volume_buffer
        (E.reorient_volume_cuda scan.get_volume.buffer scan.get_width scan.get_height
          scan.get_depth cord cornt dord dornt),
      calls := [Call.reorient_volume_cuda scan.get_width scan.get_height scan.get_depth
        cord cornt dord dornt] }

/-- The overload `reorient_volume(float *volume, w, h, d, cord, cornt, dord, dornt)`:
the new contents of the buffer. -/
def reorient_volume_buffer (E : Toolkit) (volume : List ℚ) (w h d : Nat)
    (cord : Vec3 Nat) (cornt : Vec3 Int) (dord : Vec3 Nat) (dornt : Vec3 Int) : List ℚ :=
  E.reorient_volume_cuda volume w h d cord cornt dord dornt

/-- The overload `reorient_segment(LiTS_scan *scan, cord, cornt, dord, dornt)`. -/
def reorient_segment (E : Toolkit) (p : LiTS_processor) (scan : LiTS_scan)
    (cord : Vec3 Nat) (cornt : Vec3 Int) (dord : Vec3 Nat) (dornt : Vec3 Int) : Outcome :=
  if is_itk p then
    let plan := E.reorient_permute cord cornt dord dornt
    if plan.1 || plan.2 then
      let dir := scan.get_segment.direction
      let desired_orient := desired_direction dornt
      { scan := scan.set_segment (E.orienter_s dir scan.get_segment desired_orient),
        calls := [Call.orienter_s dir desired_orient] }
    else
      { scan := scan, calls := [] }
  else
    { scan := scan.write_segment_buffer
        (E.reorient_segment_cuda scan.get_segment.buffer scan.get_width scan.get_height
          scan.get_depth cord cornt dord dornt),
      calls := [Call.reorient_segment_cuda scan.get_width scan.get_height scan.get_depth
        cord cornt dord dornt] }

/-- The overload `reorient_segment(unsigned char *segment, w, h, d, cord, cornt, dord,
dornt)`: the new contents of the buffer. -/
def reorient_segment_buffer (E : Toolkit) (segment : List Nat) (w h d : Nat)
    (cord : Vec3 Nat) (cornt : Vec3 Int) (dord : Vec3 Nat) (dornt : Vec3 Int) : List Nat :=
  E.reorient_segment_cuda segment w h d cord cornt dord dornt

def LiTS_processor.get_axes_orient (p : LiTS_processor) : Vec3 Int := p.orient

def LiTS_processor.get_axes_order (p : LiTS_processor) : Vec3 Nat := p.ord

def set_low_threshold (p : LiTS_processor) (lt : ℚ) : LiTS_processor :=
  { p with lower_th := lt }

def set_high_threshold (p : LiTS_processor) (ht : ℚ) : LiTS_processor :=
  { p with upper_th := ht }

/-! ## The setters, in sequence -/

/-- One call of a threshold setter. -/
inductive Setter where
  | low (lt : ℚ)
  | high (ht : ℚ)
deriving DecidableEq

/-- Run one setter call on the processor. -/
def Setter.run (p : LiTS_processor) : Setter → LiTS_processor
  | .low lt => set_low_threshold p lt
  | .high ht => set_high_threshold p ht

/-- Run a sequence of setter calls, first to last. -/
def run_setters (p : LiTS_processor) (calls : List Setter) : LiTS_processor :=
  calls.foldl Setter.run p

/-! ## The routines outside the analysed file -/

/-- Clamp `v` to the interval from `lo` to `hi`. -/
def clamp (v lo hi : ℚ) : ℚ :=
  if v < lo then lo else if hi < v then hi else v

/-- Modelled from the spec: the formula of the IntensityMapper, section 4.3:
`t = clamp(v, lower_threshold, upper_threshold)`,
`out = output_min + (t - lower_threshold) * (output_max - output_min) /
(upper_threshold - lower_threshold)`, then `out` clamped to
`[output_min, output_max]`. The arithmetic is exact here; the rounding of the `float`
computation is not modelled, and only the sample evaluations use the values. -/
def IntensityMapper (lower_threshold upper_threshold output_min output_max v : ℚ) : ℚ :=
  let t := clamp v lower_threshold upper_threshold
  let out := output_min +
    (t - lower_threshold) * (output_max - output_min) / (upper_threshold - lower_threshold)
  clamp out output_min output_max

/-- Modelled from the spec: the toolkit's windowing operation of section 4.3 (the filter
`RescalerType`, a library class outside the analysed files): the IntensityMapper on
every voxel of the image, geometry kept. -/
def itk_rescaler (input : VolumeType) (window_min window_max output_min output_max : ℚ) :
    VolumeType :=
  { input with
    buffer := input.buffer.map (IntensityMapper window_min window_max output_min output_max) }

/-- Modelled from the spec: the kernel `normalize_volume_cuda`, which is not in the analysed
file: the IntensityMapper of section 4.3 on each of the `w * h * d` voxels of the
buffer, written in place. -/
def normalize_kernel (volume : List ℚ) (w h d : Nat) (lt ut mn mx : ℚ) : List ℚ :=
  (volume.take (w * h * d)).map (IntensityMapper lt ut mn mx) ++ volume.drop (w * h * d)

/-- Position of the first element equal to `a` (2 when neither of the first two is). -/
def Vec3.find (v : Vec3 Nat) (a : Nat) : Nat :=
  if v.x0 = a then 0 else if v.x1 = a then 1 else 2

/-- Modelled from the spec: `perm(i)` of section 4.1. An order maps a canonical axis index to
a buffer axis index, so the axis that lands on buffer axis `i` of the desired layout
is the canonical axis `c` with `dord[c] = i`, which the current layout keeps on buffer
axis `cord[c]`. -/
def perm (cord dord : Vec3 Nat) (i : Nat) : Nat :=
  cord.get (dord.find i)

/-- Modelled from the spec: the flip decision of section 4.1 for axis `i`,
`current.sign[perm(i)] != desired.sign[i]`, with the first axis excluded (its sign is
always treated as matching). -/
def flip_axis (cord : Vec3 Nat) (cornt : Vec3 Int) (dord : Vec3 Nat) (dornt : Vec3 Int)
    (i : Nat) : Bool :=
  i != 0 && cornt.get (perm cord dord i) != dornt.get i

/-- Modelled from the spec: the OrientationPlanner of section 4.1 (`reorient_permute`, which
is declared in `pre_and_post_processor.cuh`, outside the analysed files):
`needs_permute = current.order != desired.order` and
`needs_flip = exists i: current.sign[perm(i)] != desired.sign[i]`, the sign of the
first axis being excluded. The result is `(needs_flip, needs_permute)`, the order of
the two flags of `reorient_permute`. -/
def OrientationPlanner (cord : Vec3 Nat) (cornt : Vec3 Int) (dord : Vec3 Nat)
    (dornt : Vec3 Int) : Bool × Bool :=
  ((List.range 3).any (flip_axis cord cornt dord dornt), cord != dord)

/-- Linear index of the voxel with coordinates `c` in a dense buffer of dimensions `n`
(first axis fastest). -/
def linear_index (n c : Vec3 Nat) : Nat :=
  c.x0 + n.x0 * (c.x1 + n.x1 * c.x2)

/-- Coordinates of the voxel with linear index `idx` in a dense buffer of dimensions `n`. -/
def voxel_coords (n : Vec3 Nat) (idx : Nat) : Vec3 Nat :=
  ⟨idx % n.x0, (idx / n.x0) % n.x1, idx / (n.x0 * n.x1)⟩

/-- Modelled from the spec: the single composed index remapping of section 4.2. Output axis
`i` takes the samples of input axis `p[i]`, reversed when `flip[i]`; the output
dimensions are the input dimensions permuted the same way. -/
def remap {α : Type} [Inhabited α] (buf : List α) (n p : Vec3 Nat) (flip : Vec3 Bool) :
    List α :=
  let m : Vec3 Nat := ⟨n.get p.x0, n.get p.x1, n.get p.x2⟩
  (List.range (m.x0 * m.x1 * m.x2)).map (fun idx =>
    let c := voxel_coords m idx
    let s0 := if flip.x0 then m.x0 - 1 - c.x0 else c.x0
    let s1 := if flip.x1 then m.x1 - 1 - c.x1 else c.x1
    let s2 := if flip.x2 then m.x2 - 1 - c.x2 else c.x2
    let s : Vec3 Nat := (((⟨0, 0, 0⟩ : Vec3 Nat).set p.x0 s0).set p.x1 s1).set p.x2 s2
    buf.getD (linear_index n s) default)

/-- Modelled from the spec: VolumeTransform of section 4.2 (`reorient_volume_cuda` and
`reorient_segment_cuda`, which are not in the analysed file): the remapping that
brings a buffer of dimensions `(w, h, d)` from the current to the desired AxisSpec,
the same for both payload kinds; the first axis is never flipped. -/
def VolumeTransform {α : Type} [Inhabited α] (buf : List α) (w h d : Nat)
    (cord : Vec3 Nat) (cornt : Vec3 Int) (dord : Vec3 Nat) (dornt : Vec3 Int) : List α :=
  remap buf ⟨w, h, d⟩ ⟨perm cord dord 0, perm cord dord 1, perm cord dord 2⟩
    ⟨flip_axis cord cornt dord dornt 0, flip_axis cord cornt dord dornt 1,
      flip_axis cord cornt dord dornt 2⟩

/-- Modelled from the spec: the kernel `preprocess_volume_cuda`, which is not in the analysed
file. Section 4.5: preprocess is normalize, then reorient to the home AxisSpec
(order `[0,1,2]`, sign `[1,1,1]`). -/
def preprocess_kernel (volume : List ℚ) (w h d : Nat) (cord : Vec3 Nat) (cornt : Vec3 Int)
    (lt ut mn mx : ℚ) : List ℚ :=
  VolumeTransform (normalize_kernel volume w h d lt ut mn mx) w h d cord cornt
    ⟨0, 1, 2⟩ ⟨1, 1, 1⟩

/-- Insert into a sorted list. -/
def insert_sorted (a : ℚ) : List ℚ → List ℚ
  | [] => [a]
  | b :: bs => if a ≤ b then a :: b :: bs else b :: insert_sorted a bs

/-- The median of a list of samples (0 for no sample). -/
def median (xs : List ℚ) : ℚ :=
  (xs.foldr insert_sorted []).getD (xs.length / 2) 0

/-- Modelled from the spec: MedianFilter of section 4.4 (`filter_with_median_cuda`, which is
not in the analysed file): every voxel becomes the median of the `k` by `k`
neighbourhood in its own slice, out-of-bounds samples clamped to the edge. -/
def median_kernel (volume : List ℚ) (w h d : Nat) (k : Int) : List ℚ :=
  let r : Int := k / 2
  let offsets : List Int := (List.range k.toNat).map (fun j => (j : Int) - r)
  (List.range (w * h * d)).map (fun idx =>
    let c := voxel_coords ⟨w, h, d⟩ idx
    median (offsets.flatMap (fun dy => offsets.map (fun dx =>
      let x := (min (max ((c.x0 : Int) + dx) 0) ((w : Int) - 1)).toNat
      let y := (min (max ((c.x1 : Int) + dy) 0) ((h : Int) - 1)).toNat
      volume.getD (linear_index ⟨w, h, d⟩ ⟨x, y, c.x2⟩) 0))))

/-- A stand-in for ITK's orienting filter, for images whose given and desired directions
are diagonal: an axis is reversed when the two diagonal entries differ, and the output
carries the desired direction. Only the sample evaluations use it. -/
def itk_orienter {α : Type} [Inhabited α] (given : Direction) (input : Image α)
    (desired : Direction) : Image α :=
  { input with
    buffer := remap input.buffer input.size ⟨0, 1, 2⟩
      ⟨given.x0.x0 != desired.x0.x0, given.x1.x1 != desired.x1.x1,
        given.x2.x2 != desired.x2.x2⟩,
    direction := desired }

/-- The routines as the spec describes them. -/
def spec_toolkit : Toolkit :=
  { rescaler := itk_rescaler,
    orienter_v := itk_orienter,
    orienter_s := itk_orienter,
    reorient_permute := OrientationPlanner,
    preprocess_volume_cuda := preprocess_kernel,
    normalize_volume_cuda := normalize_kernel,
    filter_with_median_cuda := median_kernel,
    reorient_volume_cuda := VolumeTransform,
    reorient_segment_cuda := VolumeTransform }

/-- An AxisSpec order is valid when it is a permutation of 0, 1, 2. -/
def valid_order (o : Vec3 Nat) : Prop :=
  o.x0 < 3 ∧ o.x1 < 3 ∧ o.x2 < 3 ∧ o.x0 ≠ o.x1 ∧ o.x0 ≠ o.x2 ∧ o.x1 ≠ o.x2

instance (o : Vec3 Nat) : Decidable (valid_order o) := by
  unfold valid_order; infer_instance

/-! ## Sample data -/

/-- The identity direction. -/
def identity_direction : Direction := ⟨⟨1, 0, 0⟩, ⟨0, 1, 0⟩, ⟨0, 0, 1⟩⟩

/-- A scan of 2 by 2 by 1 voxels in the home orientation. -/
def sample_scan : LiTS_scan :=
  { volume := { buffer := [-500, -200, 0, 1000], size := ⟨2, 2, 1⟩,
                direction := identity_direction },
    segment := { buffer := [0, 1, 2, 0], size := ⟨2, 2, 1⟩, direction := identity_direction },
    w := 2, h := 2, d := 1,
    axes_order := ⟨0, 1, 2⟩, axes_orient := ⟨1, 1, 1⟩ }

/-- A scan of 2 by 2 by 1 voxels whose second axis is reversed. -/
def flipped_scan : LiTS_scan :=
  { sample_scan with axes_orient := ⟨1, -1, 1⟩ }

/-- The processor the constructor builds for the toolkit path, window -200 to 200, output
range 0 to 255. -/
def itk_processor : LiTS_processor := new_LiTS_processor (-200) 200 0 255 "itk"

/-- The processor the constructor builds for the accelerated path, window -200 to 200,
output range 0 to 255. -/
def cuda_processor : LiTS_processor := new_LiTS_processor (-200) 200 0 255 "cuda"

/-! ## Sequencing -/

/-- Run `f` on the scan an operation left and append the calls it makes. -/
def Outcome.and_then (o : Outcome) (f : LiTS_scan → Outcome) : Outcome :=
  { scan := (f o.scan).scan, calls := o.calls ++ (f o.scan).calls }

/-! ## Lemmas -/

theorem char_toNat_inj {a b : Char} (h : a.toNat = b.toNat) : a = b := by
  have := congrArg Char.ofNat h
  simpa using this

theorem char_toNat_ne_zero {a : Char} (h : a ≠ Char.ofNat 0) : (a.toNat : Int) ≠ 0 := by
  intro h0
  apply h
  have h1 : a.toNat = 0 := by exact_mod_cast h0
  have := congrArg Char.ofNat h1
  simpa using this

/-- On C strings (no NUL inside) `strcmp` returns zero exactly on equal strings. -/
theorem strcmp_eq_zero : ∀ (a b : List Char), (∀ c ∈ a, c ≠ Char.ofNat 0) →
    (∀ c ∈ b, c ≠ Char.ofNat 0) → (strcmp a b = 0 ↔ a = b)
  | [], [], _, _ => by simp [strcmp]
  | [], b :: bs, _, hb => by
      have := char_toNat_ne_zero (hb b (by simp))
      simp [strcmp, this]
  | a :: as, [], ha, _ => by
      have := char_toNat_ne_zero (ha a (by simp))
      simp [strcmp, this]
  | a :: as, b :: bs, ha, hb => by
      have ih := strcmp_eq_zero as bs (fun c hc => ha c (by simp [hc]))
        (fun c hc => hb c (by simp [hc]))
      by_cases hab : a = b
      · simp [strcmp, hab, ih]
      · have : (a.toNat : Int) - (b.toNat : Int) ≠ 0 := by
          intro h
          apply hab
          apply char_toNat_inj
          omega
        simp [strcmp, hab, this]

theorem c_str_no_nul (s : String) : ∀ c ∈ c_str s, c ≠ Char.ofNat 0 := by
  intro c hc
  have h := List.all_takeWhile (l := s.data) (p := fun c => c != Char.ofNat 0)
  rw [List.all_eq_true] at h
  simpa using h c hc

theorem is_itk_iff (p : LiTS_processor) : is_itk p = true ↔ c_str p.approach = ['i', 't', 'k'] := by
  unfold is_itk
  rw [beq_iff_eq]
  exact strcmp_eq_zero _ _ (c_str_no_nul _) (by decide)

theorem is_itk_of_approach {p : LiTS_processor} (h : p.approach = "itk") : is_itk p = true := by
  rw [is_itk_iff, h]; decide

theorem is_itk_false {p : LiTS_processor} (h : c_str p.approach ≠ ['i', 't', 'k']) :
    is_itk p = false := by
  rw [← Bool.not_eq_true, is_itk_iff]; exact h

theorem new_ord (lt ut mn mx : ℚ) (app : String) :
    (new_LiTS_processor lt ut mn mx app).ord = ⟨0, 1, 2⟩ := by
  rfl

theorem new_orient (lt ut mn mx : ℚ) (app : String) :
    (new_LiTS_processor lt ut mn mx app).orient = ⟨1, 1, 1⟩ := by
  rfl

theorem run_setters_frame (calls : List Setter) : ∀ p : LiTS_processor,
    (run_setters p calls).ord = p.ord ∧ (run_setters p calls).orient = p.orient ∧
    (run_setters p calls).approach = p.approach ∧
    (run_setters p calls).min_value = p.min_value ∧
    (run_setters p calls).max_value = p.max_value := by
  induction calls with
  | nil => intro p; simp [run_setters]
  | cons c cs ih =>
    intro p
    have h := ih (Setter.run p c)
    simp only [run_setters, List.foldl_cons] at h ⊢
    cases c <;> simpa [Setter.run, set_low_threshold, set_high_threshold] using h

theorem perm_same (o : Vec3 Nat) (h : valid_order o) :
    perm o o 0 = 0 ∧ perm o o 1 = 1 ∧ perm o o 2 = 2 := by
  obtain ⟨a, b, c⟩ := o
  obtain ⟨ha, hb, hc, hab, hac, hbc⟩ := h
  simp only at ha hb hc hab hac hbc
  interval_cases a <;> interval_cases b <;> interval_cases c <;>
    simp_all [perm, Vec3.find, Vec3.get]

theorem linear_index_voxel_coords (n : Vec3 Nat) (idx : Nat) :
    linear_index n (voxel_coords n idx) = idx := by
  unfold linear_index voxel_coords
  simp only
  rw [← Nat.div_div_eq_div_mul, Nat.mod_add_div, Nat.mod_add_div]

theorem map_getD_range {α : Type} (buf : List α) (a : α) :
    (List.range buf.length).map (fun idx => buf.getD idx a) = buf := by
  apply List.ext_getElem
  · simp
  · intro i h1 h2
    simp [List.getD_eq_getElem?_getD, h2]

/-- The remapping with the identity permutation and no flip leaves a buffer that fills its
dimensions as it is. -/
theorem remap_identity {α : Type} [Inhabited α] (buf : List α) (n : Vec3 Nat)
    (h : buf.length = n.x0 * n.x1 * n.x2) :
    remap buf n ⟨0, 1, 2⟩ ⟨false, false, false⟩ = buf := by
  unfold remap
  simp only [Vec3.get, Vec3.set, Bool.false_eq_true, if_false]
  have : ∀ idx, linear_index n ⟨(voxel_coords n idx).x0, (voxel_coords n idx).x1,
      (voxel_coords n idx).x2⟩ = idx := fun idx => linear_index_voxel_coords n idx
  simp only [this, ← h]
  exact map_getD_range buf default

theorem flip_axis_same (cord : Vec3 Nat) (cornt dornt : Vec3 Int) (hvalid : valid_order cord)
    (h1 : dornt.get 1 = cornt.get 1) (h2 : dornt.get 2 = cornt.get 2) :
    flip_axis cord cornt cord dornt 0 = false ∧ flip_axis cord cornt cord dornt 1 = false ∧
    flip_axis cord cornt cord dornt 2 = false := by
  obtain ⟨p0, p1, p2⟩ := perm_same cord hvalid
  simp [flip_axis, p1, p2, h1, h2]

theorem planner_same (cord : Vec3 Nat) (cornt dornt : Vec3 Int) (hvalid : valid_order cord)
    (h1 : dornt.get 1 = cornt.get 1) (h2 : dornt.get 2 = cornt.get 2) :
    OrientationPlanner cord cornt cord dornt = (false, false) := by
  obtain ⟨f0, f1, f2⟩ := flip_axis_same cord cornt dornt hvalid h1 h2
  simp [OrientationPlanner, List.range_succ, f0, f1, f2]

theorem transform_same {α : Type} [Inhabited α] (buf : List α) (w h d : Nat)
    (cord : Vec3 Nat) (cornt dornt : Vec3 Int) (hvalid : valid_order cord)
    (h1 : dornt.get 1 = cornt.get 1) (h2 : dornt.get 2 = cornt.get 2)
    (hlen : buf.length = w * h * d) :
    VolumeTransform buf w h d cord cornt cord dornt = buf := by
  obtain ⟨f0, f1, f2⟩ := flip_axis_same cord cornt dornt hvalid h1 h2
  obtain ⟨p0, p1, p2⟩ := perm_same cord hvalid
  unfold VolumeTransform
  rw [f0, f1, f2, p0, p1, p2]
  exact remap_identity buf ⟨w, h, d⟩ hlen

/-! ## The claims -/

/-- C1: for a processor whose approach is "itk", `preprocess_volume` leaves the scan (and
the list of calls) as `normalize_volume` followed by `reorient_volume` from the scan's
own axis order and orientation to the processor's home AxisSpec, which is order
`[0,1,2]`, sign `[1,1,1]` for every processor built by the constructor and the
setters. -/
theorem C1_preprocess_refines (E : Toolkit) (p : LiTS_processor) (scan : LiTS_scan)
    (h : p.approach = "itk") :
    preprocess_volume E p scan =
      (normalize_volume E p scan).and_then (fun s =>
        reorient_volume E p s s.get_axes_order s.get_axes_orient
          p.get_axes_order p.get_axes_orient) ∧
    (normalize_volume E p scan).scan.get_axes_order = scan.get_axes_order ∧
    (normalize_volume E p scan).scan.get_axes_orient = scan.get_axes_orient ∧
    ∀ (lt ut mn mx : ℚ) (calls : List Setter),
      p = run_setters (new_LiTS_processor lt ut mn mx "itk") calls →
      p.get_axes_order = ⟨0, 1, 2⟩ ∧ p.get_axes_orient = ⟨1, 1, 1⟩ ∧
      preprocess_volume E p scan =
        (normalize_volume E p scan).and_then (fun s =>
          reorient_volume E p s s.get_axes_order s.get_axes_orient ⟨0, 1, 2⟩ ⟨1, 1, 1⟩) := by
  have hi := is_itk_of_approach h
  have key : preprocess_volume E p scan =
      (normalize_volume E p scan).and_then (fun s =>
        reorient_volume E p s s.get_axes_order s.get_axes_orient
          p.get_axes_order p.get_axes_orient) := by
    simp only [preprocess_volume, normalize_volume, reorient_volume, Outcome.and_then, hi,
      if_true, LiTS_scan.get_axes_order, LiTS_scan.get_axes_orient, LiTS_scan.set_volume,
      LiTS_scan.get_volume, LiTS_processor.get_axes_order, LiTS_processor.get_axes_orient]
    split <;> simp
  refine ⟨key, ?_, ?_, ?_⟩
  · simp [normalize_volume, hi, LiTS_scan.get_axes_order, LiTS_scan.set_volume]
  · simp [normalize_volume, hi, LiTS_scan.get_axes_orient, LiTS_scan.set_volume]
  · intro lt ut mn mx calls hp
    have hf := run_setters_frame calls (new_LiTS_processor lt ut mn mx "itk")
    have h1 : p.get_axes_order = ⟨0, 1, 2⟩ := by
      rw [LiTS_processor.get_axes_order, hp, hf.1, new_ord]
    have h2 : p.get_axes_orient = ⟨1, 1, 1⟩ := by
      rw [LiTS_processor.get_axes_orient, hp, hf.2.1, new_orient]
    refine ⟨h1, h2, ?_⟩
    rw [key, h1, h2]

/-- C1 at the toolkit-path processor and the scan whose second axis is reversed. -/
theorem C1_witness :
    itk_processor.approach = "itk" ∧
    preprocess_volume spec_toolkit itk_processor flipped_scan =
      (normalize_volume spec_toolkit itk_processor flipped_scan).and_then (fun s =>
        reorient_volume spec_toolkit itk_processor s s.get_axes_order s.get_axes_orient
          itk_processor.get_axes_order itk_processor.get_axes_orient) :=
  ⟨rfl, (C1_preprocess_refines spec_toolkit itk_processor flipped_scan rfl).1⟩

/-- C2, as stated, fails: the constructor with `lt == ut`, `set_low_threshold(upper_th)`
and `set_high_threshold(lower_th)` each return a processor whose two thresholds are
equal, and `normalize_volume` and `preprocess_volume` then run the intensity mapping
with that window. -/
theorem C2_counterexample :
    (new_LiTS_processor 5 5 0 255 "itk").lower_th = (new_LiTS_processor 5 5 0 255 "itk").upper_th ∧
    (set_low_threshold itk_processor itk_processor.upper_th).lower_th =
      (set_low_threshold itk_processor itk_processor.upper_th).upper_th ∧
    (set_high_threshold cuda_processor cuda_processor.lower_th).lower_th =
      (set_high_threshold cuda_processor cuda_processor.lower_th).upper_th ∧
    (normalize_volume spec_toolkit (new_LiTS_processor 5 5 0 255 "itk") sample_scan).calls =
      [Call.rescaler 5 5 0 255] ∧
    (preprocess_volume spec_toolkit (set_low_threshold itk_processor itk_processor.upper_th)
      sample_scan).calls = [Call.rescaler 200 200 0 255] ∧
    (normalize_volume spec_toolkit (set_high_threshold cuda_processor cuda_processor.lower_th)
      sample_scan).calls = [Call.normalize_volume_cuda 2 2 1 (-200) (-200) 0 255] := by
  have h1 : is_itk (new_LiTS_processor 5 5 0 255 "itk") = true := by decide
  have h2 : is_itk (set_low_threshold itk_processor itk_processor.upper_th) = true := by decide
  have h3 : is_itk (set_high_threshold cuda_processor cuda_processor.lower_th) = false := by
    decide
  refine ⟨rfl, rfl, rfl, ?_, ?_, ?_⟩
  · rw [normalize_volume, if_pos h1]; rfl
  · rw [preprocess_volume, if_pos h2]; rfl
  · rw [normalize_volume, h3]; rfl

/-- C2: the constructor and the two setters store the thresholds they are given without a
check, equal thresholds included, and `normalize_volume` and `preprocess_volume` run
the intensity mapping (the windowing filter or the `*_cuda` routine) with the stored
window `lower_th`, `upper_th`, whatever it is. -/
theorem C2_thresholds_unchecked :
    (∀ (lt ut mn mx : ℚ) (app : String),
      (new_LiTS_processor lt ut mn mx app).lower_th = lt ∧
      (new_LiTS_processor lt ut mn mx app).upper_th = ut) ∧
    (∀ (p : LiTS_processor) (lt : ℚ),
      (set_low_threshold p lt).lower_th = lt ∧ (set_low_threshold p lt).upper_th = p.upper_th) ∧
    (∀ (p : LiTS_processor) (ht : ℚ),
      (set_high_threshold p ht).upper_th = ht ∧
      (set_high_threshold p ht).lower_th = p.lower_th) ∧
    (∀ (E : Toolkit) (p : LiTS_processor) (scan : LiTS_scan),
      (normalize_volume E p scan).calls.any (Call.maps_window p.lower_th p.upper_th) = true ∧
      (preprocess_volume E p scan).calls.any (Call.maps_window p.lower_th p.upper_th) = true) := by
  refine ⟨fun _ _ _ _ _ => ⟨rfl, rfl⟩, fun _ _ => ⟨rfl, rfl⟩, fun _ _ => ⟨rfl, rfl⟩, ?_⟩
  intro E p scan
  constructor
  · unfold normalize_volume; split <;> simp [Call.maps_window]
  · unfold preprocess_volume; split
    · simp only []; split <;> simp [Call.maps_window]
    · simp [Call.maps_window]

/-- C3, as stated, fails: with the even size 2, the size 0 and the size -1,
`filter_with_median` dispatches to `filter_with_median_cuda` with that size. -/
theorem C3_counterexample :
    (filter_with_median spec_toolkit cuda_processor sample_scan 2).calls =
      [Call.filter_with_median_cuda 2 2 1 2] ∧
    (filter_with_median spec_toolkit cuda_processor sample_scan 0).calls =
      [Call.filter_with_median_cuda 2 2 1 0] ∧
    (filter_with_median spec_toolkit cuda_processor sample_scan (-1)).calls =
      [Call.filter_with_median_cuda 2 2 1 (-1)] :=
  ⟨rfl, rfl, rfl⟩

/-- C3: `filter_with_median` checks nothing: for every scan and every size `k`, even, less
than 1 or not, it makes exactly one call, `filter_with_median_cuda` with the scan's
buffer and dimensions and that `k`, and leaves in the volume what the routine wrote;
the processor's configuration plays no role. -/
theorem C3_median_unchecked (E : Toolkit) (p : LiTS_processor) (scan : LiTS_scan) (k : Int) :
    filter_with_median E p scan k =
      { scan := scan.write_volume_buffer
          (E.filter_with_median_cuda scan.get_volume.buffer scan.get_width scan.get_height
            scan.get_depth k),
        calls := [Call.filter_with_median_cuda scan.get_width scan.get_height
          scan.get_depth k] } ∧
    (filter_with_median E p scan k).calls.any Call.is_cuda = true ∧
    (∀ q : LiTS_processor, filter_with_median E q scan k = filter_with_median E p scan k) := by
  refine ⟨rfl, ?_, fun q => rfl⟩
  simp [filter_with_median, Call.is_cuda]

/-- C4, as stated, fails for `filter_with_median`: on a processor whose approach is
"itk" it calls `filter_with_median_cuda`. -/
theorem C4_counterexample :
    itk_processor.approach = "itk" ∧
    (filter_with_median spec_toolkit itk_processor sample_scan 3).calls =
      [Call.filter_with_median_cuda 2 2 1 3] ∧
    (filter_with_median spec_toolkit itk_processor sample_scan 3).calls.any Call.is_cuda
      = true := by
  refine ⟨rfl, rfl, rfl⟩

/-- C4: with approach "itk", `preprocess_volume`, `normalize_volume`, `reorient_volume`
and `reorient_segment` on a scan run on the toolkit path: they call no `*_cuda`
routine, the volume (segment) they leave is the output of the windowing and orienting
filters, or the one they found when the plan asks for nothing. `filter_with_median`
has one path only: whatever the approach, it calls `filter_with_median_cuda`. -/
theorem C4_itk_dispatch (E : Toolkit) (p : LiTS_processor) (scan : LiTS_scan)
    (cord : Vec3 Nat) (cornt : Vec3 Int) (dord : Vec3 Nat) (dornt : Vec3 Int) (k : Int)
    (h : p.approach = "itk") :
    ((preprocess_volume E p scan).calls.any Call.is_cuda = false ∧
      (normalize_volume E p scan).calls.any Call.is_cuda = false ∧
      (reorient_volume E p scan cord cornt dord dornt).calls.any Call.is_cuda = false ∧
      (reorient_segment E p scan cord cornt dord dornt).calls.any Call.is_cuda = false) ∧
    (normalize_volume E p scan =
      { scan := scan.set_volume
          (E.rescaler scan.get_volume p.lower_th p.upper_th p.min_value p.max_value),
        calls := [Call.rescaler p.lower_th p.upper_th p.min_value p.max_value] }) ∧
    (reorient_volume E p scan cord cornt dord dornt =
      if (E.reorient_permute cord cornt dord dornt).1
          || (E.reorient_permute cord cornt dord dornt).2 then
        { scan := scan.set_volume (E.orienter_v scan.get_volume.direction scan.get_volume
            (desired_direction dornt)),
          calls := [Call.orienter_v scan.get_volume.direction (desired_direction dornt)] }
      else { scan := scan, calls := [] }) ∧
    (reorient_segment E p scan cord cornt dord dornt =
      if (E.reorient_permute cord cornt dord dornt).1
          || (E.reorient_permute cord cornt dord dornt).2 then
        { scan := scan.set_segment (E.orienter_s scan.get_segment.direction scan.get_segment
            (desired_direction dornt)),
          calls := [Call.orienter_s scan.get_segment.direction (desired_direction dornt)] }
      else { scan := scan, calls := [] }) ∧
    (∀ q : LiTS_processor, (filter_with_median E q scan k).calls =
      [Call.filter_with_median_cuda scan.get_width scan.get_height scan.get_depth k]) := by
  have hi := is_itk_of_approach h
  refine ⟨⟨?_, ?_, ?_, ?_⟩, ?_, ?_, ?_, ?_⟩
  · simp only [preprocess_volume, hi, if_true]; split <;> simp [Call.is_cuda]
  · simp [normalize_volume, hi, Call.is_cuda]
  · simp only [reorient_volume, hi, if_true]; split <;> simp [Call.is_cuda]
  · simp only [reorient_segment, hi, if_true]; split <;> simp [Call.is_cuda]
  · simp [normalize_volume, hi]
  · simp only [reorient_volume, hi, if_true]
  · simp only [reorient_segment, hi, if_true]
  · intro q; rfl

/-- C4 at the toolkit-path processor and the sample scan. -/
theorem C4_witness :
    itk_processor.approach = "itk" ∧
    (normalize_volume spec_toolkit itk_processor sample_scan).calls.any Call.is_cuda = false :=
  ⟨rfl, (C4_itk_dispatch spec_toolkit itk_processor sample_scan ⟨0, 1, 2⟩ ⟨1, 1, 1⟩
    ⟨0, 1, 2⟩ ⟨1, 1, 1⟩ 3 rfl).1.2.1⟩

/-- C5: `set_low_threshold` changes `lower_th` only and `set_high_threshold` changes
`upper_th` only; after any sequence of the two setters the home AxisSpec is still the
order `[0,1,2]`, sign `[1,1,1]` the constructor wrote. -/
theorem C5_setters_frame :
    (∀ (p : LiTS_processor) (lt : ℚ),
      (set_low_threshold p lt).lower_th = lt ∧
      (set_low_threshold p lt).upper_th = p.upper_th ∧
      (set_low_threshold p lt).min_value = p.min_value ∧
      (set_low_threshold p lt).max_value = p.max_value ∧
      (set_low_threshold p lt).approach = p.approach ∧
      (set_low_threshold p lt).ord = p.ord ∧
      (set_low_threshold p lt).orient = p.orient) ∧
    (∀ (p : LiTS_processor) (ht : ℚ),
      (set_high_threshold p ht).upper_th = ht ∧
      (set_high_threshold p ht).lower_th = p.lower_th ∧
      (set_high_threshold p ht).min_value = p.min_value ∧
      (set_high_threshold p ht).max_value = p.max_value ∧
      (set_high_threshold p ht).approach = p.approach ∧
      (set_high_threshold p ht).ord = p.ord ∧
      (set_high_threshold p ht).orient = p.orient) ∧
    (∀ (lt ut mn mx : ℚ) (app : String) (calls : List Setter),
      (run_setters (new_LiTS_processor lt ut mn mx app) calls).get_axes_order = ⟨0, 1, 2⟩ ∧
      (run_setters (new_LiTS_processor lt ut mn mx app) calls).get_axes_orient = ⟨1, 1, 1⟩) := by
  refine ⟨fun p lt => by simp [set_low_threshold], fun p ht => by simp [set_high_threshold], ?_⟩
  intro lt ut mn mx app calls
  have hf := run_setters_frame calls (new_LiTS_processor lt ut mn mx app)
  exact ⟨by rw [LiTS_processor.get_axes_order, hf.1, new_ord],
    by rw [LiTS_processor.get_axes_orient, hf.2.1, new_orient]⟩

/-- C6: whatever the approach, `normalize_volume` and `preprocess_volume` leave the
segmentation mask as it was; the scan after the call differs from the scan before it
in its volume at most. -/
theorem C6_segment_unchanged (E : Toolkit) (p : LiTS_processor) (scan : LiTS_scan) :
    (normalize_volume E p scan).scan.get_segment = scan.get_segment ∧
    (preprocess_volume E p scan).scan.get_segment = scan.get_segment ∧
    (normalize_volume E p scan).scan.set_volume scan.get_volume = scan ∧
    (preprocess_volume E p scan).scan.set_volume scan.get_volume = scan := by
  refine ⟨?_, ?_, ?_, ?_⟩
  · unfold normalize_volume; split <;> rfl
  · unfold preprocess_volume; split
    · simp only []; split <;> rfl
    · rfl
  · unfold normalize_volume; split <;> rfl
  · unfold preprocess_volume; split
    · simp only []; split <;> rfl
    · rfl

/-- C8: when the current and the desired AxisSpec have the same (valid) order and the same
signs on axes 1 and 2, whatever the two signs of axis 0 are, the plan reports no flip
and no permutation, axis 0 is not flipped, and `reorient_volume` and
`reorient_segment` leave the scan, whose buffers fill its dimensions, as it was, on
both paths. -/
theorem C8_first_axis_sign_ignored (p : LiTS_processor) (scan : LiTS_scan)
    (cord : Vec3 Nat) (cornt : Vec3 Int) (dord : Vec3 Nat) (dornt : Vec3 Int)
    (hvalid : valid_order cord) (hord : dord = cord)
    (h1 : dornt.get 1 = cornt.get 1) (h2 : dornt.get 2 = cornt.get 2)
    (hvol : scan.get_volume.buffer.length =
      scan.get_width * scan.get_height * scan.get_depth)
    (hseg : scan.get_segment.buffer.length =
      scan.get_width * scan.get_height * scan.get_depth) :
    OrientationPlanner cord cornt dord dornt = (false, false) ∧
    flip_axis cord cornt dord dornt 0 = false ∧
    (reorient_volume spec_toolkit p scan cord cornt dord dornt).scan = scan ∧
    (reorient_segment spec_toolkit p scan cord cornt dord dornt).scan = scan := by
  cases hord
  have hplan := planner_same cord cornt dornt hvalid h1 h2
  refine ⟨hplan, (flip_axis_same cord cornt dornt hvalid h1 h2).1, ?_, ?_⟩
  · unfold reorient_volume
    split
    · simp [spec_toolkit, hplan]
    · simp only [spec_toolkit]
      rw [transform_same _ _ _ _ cord cornt dornt hvalid h1 h2 hvol]
      rfl
  · unfold reorient_segment
    split
    · simp [spec_toolkit, hplan]
    · simp only [spec_toolkit]
      rw [transform_same _ _ _ _ cord cornt dornt hvalid h1 h2 hseg]
      rfl

/-- C8 at the home order with the sign of axis 0 reversed, on both paths. -/
theorem C8_witness :
    valid_order ⟨0, 1, 2⟩ ∧
    OrientationPlanner ⟨0, 1, 2⟩ ⟨-1, 1, 1⟩ ⟨0, 1, 2⟩ ⟨1, 1, 1⟩ = (false, false) ∧
    (reorient_volume spec_toolkit cuda_processor sample_scan
      ⟨0, 1, 2⟩ ⟨-1, 1, 1⟩ ⟨0, 1, 2⟩ ⟨1, 1, 1⟩).scan = sample_scan ∧
    (reorient_segment spec_toolkit itk_processor sample_scan
      ⟨0, 1, 2⟩ ⟨-1, 1, 1⟩ ⟨0, 1, 2⟩ ⟨1, 1, 1⟩).scan = sample_scan :=
  ⟨by decide,
    (C8_first_axis_sign_ignored cuda_processor sample_scan ⟨0, 1, 2⟩ ⟨-1, 1, 1⟩ ⟨0, 1, 2⟩
      ⟨1, 1, 1⟩ (by decide) rfl rfl rfl rfl rfl).1,
    (C8_first_axis_sign_ignored cuda_processor sample_scan ⟨0, 1, 2⟩ ⟨-1, 1, 1⟩ ⟨0, 1, 2⟩
      ⟨1, 1, 1⟩ (by decide) rfl rfl rfl rfl rfl).2.2.1,
    (C8_first_axis_sign_ignored itk_processor sample_scan ⟨0, 1, 2⟩ ⟨-1, 1, 1⟩ ⟨0, 1, 2⟩
      ⟨1, 1, 1⟩ (by decide) rfl rfl rfl rfl rfl).2.2.2⟩

/-- C9, as stated, fails: the approach string "itk" followed by a NUL and "cuda" is not
"itk", yet `strcmp` on its `c_str()` reads "itk" and the four operations take the
toolkit path without calling a `*_cuda` routine. -/
theorem C9_counterexample :
    ("itk\x00cuda" : String) ≠ "itk" ∧
    is_itk (new_LiTS_processor (-200) 200 0 255 "itk\x00cuda") = true ∧
    (preprocess_volume spec_toolkit (new_LiTS_processor (-200) 200 0 255 "itk\x00cuda")
      sample_scan).calls = [Call.rescaler (-200) 200 0 255] ∧
    (normalize_volume spec_toolkit (new_LiTS_processor (-200) 200 0 255 "itk\x00cuda")
      sample_scan).calls = [Call.rescaler (-200) 200 0 255] ∧
    (reorient_volume spec_toolkit (new_LiTS_processor (-200) 200 0 255 "itk\x00cuda")
      sample_scan ⟨0, 1, 2⟩ ⟨1, -1, 1⟩ ⟨0, 1, 2⟩ ⟨1, 1, 1⟩).calls =
        [Call.orienter_v identity_direction identity_direction] ∧
    (reorient_segment spec_toolkit (new_LiTS_processor (-200) 200 0 255 "itk\x00cuda")
      sample_scan ⟨0, 1, 2⟩ ⟨1, -1, 1⟩ ⟨0, 1, 2⟩ ⟨1, 1, 1⟩).calls =
        [Call.orienter_s identity_direction identity_direction] := by
  have hi : is_itk (new_LiTS_processor (-200) 200 0 255 "itk\x00cuda") = true := by decide
  refine ⟨by decide, hi, ?_, ?_, ?_, ?_⟩
  · rw [preprocess_volume, if_pos hi]; rfl
  · rw [normalize_volume, if_pos hi]; rfl
  · rw [reorient_volume, if_pos hi]; rfl
  · rw [reorient_segment, if_pos hi]; rfl

/-- C9: when the C string of the approach (its characters before the first NUL) is not
"itk", `preprocess_volume`, `normalize_volume`, `reorient_volume` and
`reorient_segment` on a scan make exactly one call, to their `*_cuda` routine, and
the scan they leave is the one that routine wrote. -/
theorem C9_other_approach_accelerated (E : Toolkit) (p : LiTS_processor) (scan : LiTS_scan)
    (cord : Vec3 Nat) (cornt : Vec3 Int) (dord : Vec3 Nat) (dornt : Vec3 Int)
    (h : c_str p.approach ≠ ['i', 't', 'k']) :
    preprocess_volume E p scan =
      { scan := scan.write_volume_buffer
          (E.preprocess_volume_cuda scan.get_volume.buffer scan.get_width scan.get_height
            scan.get_depth scan.get_axes_order scan.get_axes_orient
            p.lower_th p.upper_th p.min_value p.max_value),
        calls := [Call.preprocess_volume_cuda scan.get_width scan.get_height scan.get_depth
          scan.get_axes_order scan.get_axes_orient
          p.lower_th p.upper_th p.min_value p.max_value] } ∧
    normalize_volume E p scan =
      { scan := scan.write_volume_buffer
          (E.normalize_volume_cuda scan.get_volume.buffer scan.get_width scan.get_height
            scan.get_depth p.lower_th p.upper_th p.min_value p.max_value),
        calls := [Call.normalize_volume_cuda scan.get_width scan.get_height scan.get_depth
          p.lower_th p.upper_th p.min_value p.max_value] } ∧
    reorient_volume E p scan cord cornt dord dornt =
      { scan := scan.write_volume_buffer
          (E.reorient_volume_cuda scan.get_volume.buffer scan.get_width scan.get_height
            scan.get_depth cord cornt dord dornt),
        calls := [Call.reorient_volume_cuda scan.get_width scan.get_height scan.get_depth
          cord cornt dord dornt] } ∧
    reorient_segment E p scan cord cornt dord dornt =
      { scan := scan.write_segment_buffer
          (E.reorient_segment_cuda scan.get_segment.buffer scan.get_width scan.get_height
            scan.get_depth cord cornt dord dornt),
        calls := [Call.reorient_segment_cuda scan.get_width scan.get_height scan.get_depth
          cord cornt dord dornt] } := by
  have hi := is_itk_false h
  refine ⟨?_, ?_, ?_, ?_⟩
  · simp [preprocess_volume, hi]
  · simp [normalize_volume, hi]
  · simp [reorient_volume, hi]
  · simp [reorient_segment, hi]

/-- C9 at the approach strings "cuda", "ITK" and the empty string. -/
theorem C9_witness :
    c_str cuda_processor.approach ≠ ['i', 't', 'k'] ∧
    (normalize_volume spec_toolkit cuda_processor sample_scan).calls =
      [Call.normalize_volume_cuda 2 2 1 (-200) 200 0 255] ∧
    c_str (new_LiTS_processor 0 1 0 1 "ITK").approach ≠ ['i', 't', 'k'] ∧
    c_str (new_LiTS_processor 0 1 0 1 "").approach ≠ ['i', 't', 'k'] :=
  ⟨by decide,
    by
      rw [(C9_other_approach_accelerated spec_toolkit cuda_processor sample_scan
        ⟨0, 1, 2⟩ ⟨1, 1, 1⟩ ⟨0, 1, 2⟩ ⟨1, 1, 1⟩ (by decide)).2.1]
      rfl,
    by decide, by decide⟩

/-- C10: on the toolkit path (approach "itk"), the outcome of `reorient_volume` and of
`reorient_segment` depends on the current order, the current orientation and the
desired order through the plan only: two calls on the same scan with the same desired
orientation `dornt` whose plans agree on "reorient or permute" leave the same outcome,
and when the plan reports one of the two, the image left is what the orienting filter
returns for the image, the image's own direction and the diagonal matrix of `dornt`. -/
theorem C10_orienter_inputs (E : Toolkit) (p : LiTS_processor) (scan : LiTS_scan)
    (dornt : Vec3 Int) (cord1 : Vec3 Nat) (cornt1 : Vec3 Int) (dord1 : Vec3 Nat)
    (cord2 : Vec3 Nat) (cornt2 : Vec3 Int) (dord2 : Vec3 Nat)
    (h : p.approach = "itk")
    (hplan : ((E.reorient_permute cord1 cornt1 dord1 dornt).1
        || (E.reorient_permute cord1 cornt1 dord1 dornt).2) =
      ((E.reorient_permute cord2 cornt2 dord2 dornt).1
        || (E.reorient_permute cord2 cornt2 dord2 dornt).2)) :
    reorient_volume E p scan cord1 cornt1 dord1 dornt =
      reorient_volume E p scan cord2 cornt2 dord2 dornt ∧
    reorient_segment E p scan cord1 cornt1 dord1 dornt =
      reorient_segment E p scan cord2 cornt2 dord2 dornt ∧
    (((E.reorient_permute cord1 cornt1 dord1 dornt).1
        || (E.reorient_permute cord1 cornt1 dord1 dornt).2) = true →
      reorient_volume E p scan cord1 cornt1 dord1 dornt =
        { scan := scan.set_volume (E.orienter_v scan.get_volume.direction scan.get_volume
            (desired_direction dornt)),
          calls := [Call.orienter_v scan.get_volume.direction (desired_direction dornt)] } ∧
      reorient_segment E p scan cord1 cornt1 dord1 dornt =
        { scan := scan.set_segment (E.orienter_s scan.get_segment.direction scan.get_segment
            (desired_direction dornt)),
          calls := [Call.orienter_s scan.get_segment.direction (desired_direction dornt)] }) := by
  have hi := is_itk_of_approach h
  refine ⟨?_, ?_, ?_⟩
  · simp only [reorient_volume, hi, if_true, hplan]
  · simp only [reorient_segment, hi, if_true, hplan]
  · intro h1
    constructor
    · simp only [reorient_volume, hi, if_true, h1]
    · simp only [reorient_segment, hi, if_true, h1]

/-- C10 at two calls with different current and desired orders whose plans both ask for a
change. -/
theorem C10_witness :
    itk_processor.approach = "itk" ∧
    reorient_volume spec_toolkit itk_processor sample_scan ⟨0, 1, 2⟩ ⟨1, -1, 1⟩ ⟨0, 1, 2⟩ ⟨1, 1, 1⟩ =
      reorient_volume spec_toolkit itk_processor sample_scan ⟨1, 0, 2⟩ ⟨1, 1, -1⟩ ⟨2, 1, 0⟩
        ⟨1, 1, 1⟩ :=
  ⟨rfl, (C10_orienter_inputs spec_toolkit itk_processor sample_scan ⟨1, 1, 1⟩
    ⟨0, 1, 2⟩ ⟨1, -1, 1⟩ ⟨0, 1, 2⟩ ⟨1, 0, 2⟩ ⟨1, 1, -1⟩ ⟨2, 1, 0⟩ rfl (by decide)).1⟩

end LiTS
